import Mathlib

/-!
Shallow embedding of the Sphinx documentation configuration `docs/conf.py`
of the play-silhouette repository, together with theorems checking the
natural-language specification of that file against the code.

The module body of `conf.py` is straight-line Python: it assigns a fixed
set of module-level configuration variables, with a single conditional
(the optional `sphinx_rtd_theme` import probe guarded by `not on_rtd`).
We model the ambient environment (`os.environ` lookup of `READTHEDOCS`
and importability of `sphinx_rtd_theme`) as an explicit `Env` record, the
module-level variables as a `Config` record, and execution of the module
body as a function `exec : Env → Config → Config` (the input `Config` is
the prior interpreter state; `conf.py` overwrites every field it assigns,
and leaves `html_theme_path` untouched on the paths that never assign it).
-/

namespace DocsConf

/-- The ambient environment of one execution of `conf.py`:
the value of the `READTHEDOCS` environment variable (`none` when unset),
whether `import sphinx_rtd_theme` succeeds, and, when it does, the value
returned by `sphinx_rtd_theme.get_html_theme_path()`. -/
structure Env where
  readthedocs : Option String
  rtdThemeImportable : Bool
  rtdThemePath : String
deriving Repr, DecidableEq

/-- `on_rtd = os.environ.get("READTHEDOCS", None) == "True"` (conf.py line 6). -/
def on_rtd (env : Env) : Bool :=
  env.readthedocs == some "True"

/-- `project = "Silhouette"` -/
def project : String := "Silhouette"

/-- `copyright = "2015, Christian Kaps"` -/
def copyrightVal : String := "2015, Christian Kaps"

/-- `last_stable = "1.0"` -/
def last_stable : String := "1.0"

/-- `version = "2"` -/
def versionVal : String := "2"

/-- `release = "2.0-SNAPSHOT"` -/
def releaseVal : String := "2.0-SNAPSHOT"

/-- The `extlinks` mapping (conf.py lines 25-31): each symbolic link-role
name maps to a pair of a URL pattern with a `%s` placeholder and a caption
prefix (the empty string for all five entries). -/
def extlinks : List (String × String × String) :=
  [("silhouette-doc", ("http://docs.silhouette.mohiva.com/%s/", "")),
   ("silhouette-api-doc", ("http://silhouette.mohiva.com/api/%s/", "")),
   ("silhouette-htmlzip-doc", ("https://readthedocs.org/projects/silhouette/downloads/htmlzip/%s/", "")),
   ("silhouette-pdf-doc", ("https://readthedocs.org/projects/silhouette/downloads/pdf/%s/", "")),
   ("silhouette-epub-doc", ("https://readthedocs.org/projects/silhouette/downloads/epub/%s/", ""))]

/-- Python `%`-formatting of a pattern against a single string argument,
restricted to the feature the patterns of `extlinks` use: the scan replaces
the first `%s` conversion specifier with the argument and copies every
other character unchanged. -/
def substPct (v : List Char) : List Char → List Char
  | [] => []
  | '%' :: 's' :: rest => v ++ rest
  | c :: rest => c :: substPct v rest

/-- Expansion of an extlinks URL pattern with a version string, as Sphinx
performs it with Python `pattern % version`. -/
def expandTemplate (pat v : String) : String :=
  ⟨substPct v.data pat.data⟩

/-- Number of positions at which the placeholder `%s` occurs. -/
def countPS : List Char → Nat
  | [] => 0
  | a :: rest =>
    (if a = '%' ∧ rest.head? = some 's' then 1 else 0) + countPS rest

/-- Python `str.format` with two positional arguments, restricted to the
features the `rst_prolog` template uses: `\x7b0\x7d` is replaced by the first
argument, `\x7b1\x7d` by the second, and every other character is copied. -/
def fmt2 (a b : List Char) : List Char → List Char
  | [] => []
  | [x] => [x]
  | [x, y] => [x, y]
  | x :: y :: z :: rest =>
    if x = Char.ofNat 123 ∧ y = '0' ∧ z = Char.ofNat 125 then a ++ fmt2 a b rest
    else if x = Char.ofNat 123 ∧ y = '1' ∧ z = Char.ofNat 125 then b ++ fmt2 a b rest
    else x :: fmt2 a b (y :: z :: rest)

/-- The triple-quoted template of `rst_prolog` (conf.py lines 21-23),
before `.format(last_stable, release)` is applied. -/
def rst_prolog_template : String :=
  "\n.. |last_stable| replace:: :silhouette-doc:`\x7b0\x7d`\n"

/-- `rst_prolog` is the triple-quoted template formatted with two arguments, `.format(last_stable, release)` (conf.py lines 21-23). -/
def rst_prologVal : String :=
  ⟨fmt2 last_stable.data releaseVal.data rst_prolog_template.data⟩

/-- `import sphinx_rtd_theme`, which either yields the module (here
represented by the value of its `get_html_theme_path()`) or raises
`ImportError` (represented as `Except.error ()`). -/
def importSphinxRtdTheme (env : Env) : Except Unit String :=
  if env.rtdThemeImportable then Except.ok env.rtdThemePath else Except.error ()

/-- The `try` block of conf.py lines 37-42 run under `tryCatch`: import the
theme module, then assign `html_theme` and `html_theme_path`; on
`ImportError` the handler is `pass`, so the previously assigned values
(`html_theme = "default"`, `html_theme_path` untouched at `priorPath`)
stand. -/
def tryThemeBlock (env : Env) (priorPath : Option (List String)) :
    Except Unit (String × Option (List String)) :=
  Except.tryCatch
    (do
      let p ← importSphinxRtdTheme env
      pure ("sphinx_rtd_theme", some [p]))
    (fun _ => pure ("default", priorPath))

/-- The whole theme-selection passage (conf.py lines 35-42):
`html_theme = "default"`, then, only when `not on_rtd`, the guarded
try/except probe. Returns the final `(html_theme, html_theme_path)` pair,
where `priorPath` is the prior interpreter value of `html_theme_path`
(the variable is only assigned inside the successful probe). -/
def themeSel (env : Env) (priorPath : Option (List String)) :
    String × Option (List String) :=
  if !(on_rtd env) then
    match tryThemeBlock env priorPath with
    | Except.ok r => r
    | Except.error _ => ("default", priorPath)
  else ("default", priorPath)

/-- The module-level variables `conf.py` exposes to Sphinx. An unset
`html_theme_path` is `none`; every other variable is assigned
unconditionally by the module body. -/
structure Config where
  extensions : List String
  templates_path : List String
  exclude_patterns : List String
  source_suffix : String
  master_doc : String
  projectName : String
  copyrightField : String
  lastStableField : String
  versionField : String
  releaseField : String
  pygments_style : String
  rst_prolog : String
  extlinksField : List (String × String × String)
  html_theme : String
  html_theme_path : Option (List String)
  html_static_path : List String
  html_use_smartypants : Bool
  htmlhelp_basename : String
  latex_elements : List (String × String)
  latex_documents : List (String × String × String × String × String)
  man_pages : List (String × String × String × List String × Nat)
deriving Repr, DecidableEq

/-- Execution of the module body of `conf.py` in environment `env`,
starting from interpreter state `s`: every configuration variable is
assigned its fixed value; `html_theme` and `html_theme_path` come from the
theme-selection passage, which leaves `html_theme_path` at its prior value
unless the probe succeeds. -/
def execConf (env : Env) (s : Config) : Config :=
  let ts := themeSel env s.html_theme_path
  { extensions := ["sphinx.ext.ifconfig", "sphinx.ext.extlinks"]
    templates_path := ["_templates"]
    exclude_patterns := ["_build"]
    source_suffix := ".rst"
    master_doc := "index"
    projectName := project
    copyrightField := copyrightVal
    lastStableField := last_stable
    versionField := versionVal
    releaseField := releaseVal
    pygments_style := "sphinx"
    rst_prolog := rst_prologVal
    extlinksField := extlinks
    html_theme := ts.1
    html_theme_path := ts.2
    html_static_path := ["_static"]
    html_use_smartypants := true
    htmlhelp_basename := "Silhouettedoc"
    latex_elements := []
    latex_documents := [("index", ("Silhouette.tex", ("Silhouette Documentation", ("Christian Kaps", "manual"))))]
    man_pages := [("index", ("silhouette", ("Silhouette Documentation", (["Christian Kaps"], 1))))] }

/-- The interpreter state before `conf.py` runs: no configuration variable
has been assigned yet (`html_theme_path` unset; the remaining fields hold
inert placeholder values, all of which the module body overwrites). -/
def initState : Config :=
  { extensions := [], templates_path := [], exclude_patterns := [],
    source_suffix := "", master_doc := "", projectName := "",
    copyrightField := "", lastStableField := "", versionField := "",
    releaseField := "", pygments_style := "", rst_prolog := "",
    extlinksField := [], html_theme := "", html_theme_path := none,
    html_static_path := [], html_use_smartypants := false,
    htmlhelp_basename := "", latex_elements := [], latex_documents := [],
    man_pages := [] }

/-- `load()`: one execution of `conf.py` from a fresh interpreter state. -/
def load (env : Env) : Config :=
  execConf env initState

/-- The `html_theme` value that `load()` selects — what the spec calls `resolveTheme()`. -/
def resolveTheme (env : Env) : String :=
  (load env).html_theme

/-- The host application handed to `setup`, reduced to the registries that
`app.add_stylesheet` can touch: the CSS-file registry it appends to and a
second, unrelated registry used to state the frame condition. -/
structure App where
  css_files : List String
  js_files : List String
deriving Repr, DecidableEq

/-- `app.add_stylesheet(filename)`: append one stylesheet to the host
application CSS registry. -/
def add_stylesheet (app : App) (filename : String) : App :=
  { app with css_files := app.css_files ++ [filename] }

/-- `def setup(app): app.add_stylesheet("theme_overrides.css")`
(conf.py lines 53-55). -/
def setup (app : App) : App :=
  add_stylesheet app "theme_overrides.css"

/-- Agreement of two configuration states on every field other than the
two the theme probe can influence (`html_theme`, `html_theme_path`). -/
def nonThemeAgree (c₁ c₂ : Config) : Prop :=
  c₁.extensions = c₂.extensions ∧ c₁.templates_path = c₂.templates_path ∧
  c₁.exclude_patterns = c₂.exclude_patterns ∧ c₁.source_suffix = c₂.source_suffix ∧
  c₁.master_doc = c₂.master_doc ∧ c₁.projectName = c₂.projectName ∧
  c₁.copyrightField = c₂.copyrightField ∧ c₁.lastStableField = c₂.lastStableField ∧
  c₁.versionField = c₂.versionField ∧ c₁.releaseField = c₂.releaseField ∧
  c₁.pygments_style = c₂.pygments_style ∧ c₁.rst_prolog = c₂.rst_prolog ∧
  c₁.extlinksField = c₂.extlinksField ∧ c₁.html_static_path = c₂.html_static_path ∧
  c₁.html_use_smartypants = c₂.html_use_smartypants ∧
  c₁.htmlhelp_basename = c₂.htmlhelp_basename ∧
  c₁.latex_elements = c₂.latex_elements ∧ c₁.latex_documents = c₂.latex_documents ∧
  c₁.man_pages = c₂.man_pages

/-- `countPS` distributes over append when no `%s` occurrence straddles the
seam between the two lists. -/
lemma countPS_append (l₁ l₂ : List Char)
    (h : ¬ (l₁.getLast? = some '%' ∧ l₂.head? = some 's')) :
    countPS (l₁ ++ l₂) = countPS l₁ + countPS l₂ := by
  induction l₁ with
  | nil => simp [countPS]
  | cons a t ih =>
    cases t with
    | nil =>
      simp only [List.getLast?_singleton] at h
      cases l₂ with
      | nil => simp [countPS]
      | cons b t2 =>
        have hb : ¬ (a = '%' ∧ b = 's') := by
          intro hab
          refine h ⟨by rw [hab.1], ?_⟩
          rw [List.head?_cons, hab.2]
        simp [countPS, hb]
    | cons b t' =>
      have h' : ¬ ((b :: t').getLast? = some '%' ∧ l₂.head? = some 's') := by
        intro hb
        exact h ⟨by rw [List.getLast?_cons_cons]; exact hb.1, hb.2⟩
      have ih' := ih h'
      simp only [List.append_eq, List.cons_append, countPS, List.head?_cons,
        Option.some.injEq] at *
      omega

/-- A URL pattern that splits as `pre ++ "%s" ++ suf` with a placeholder-free
prefix and suffix expands, for every version string, to the version inserted
at the split point — and the expansion is placeholder-free whenever the
version string is. -/
lemma expand_case (pat pre suf : String) (v : String)
    (hpre : countPS pre.data = 0) (hsuf : countPS suf.data = 0)
    (hlastp : ¬ pre.data.getLast? = some '%')
    (hheads : ¬ suf.data.head? = some 's')
    (hpat : pat.data = pre.data ++ ('%' :: 's' :: []) ++ suf.data)
    (hexp : (expandTemplate pat v).data = pre.data ++ v.data ++ suf.data) :
    ∃ pre' suf' : List Char,
      countPS pre' = 0 ∧ countPS suf' = 0 ∧
      pat.data = pre' ++ ('%' :: 's' :: []) ++ suf' ∧
      (expandTemplate pat v).data = pre' ++ v.data ++ suf' ∧
      (countPS v.data = 0 → countPS (expandTemplate pat v).data = 0) := by
  refine ⟨pre.data, suf.data, hpre, hsuf, hpat, hexp, fun hv => ?_⟩
  rw [hexp, countPS_append (pre.data ++ v.data) suf.data (fun hx => hheads hx.2),
      countPS_append pre.data v.data (fun hx => hlastp hx.1)]
  omega

/-- C1, as stated by the spec, is false on the code: in the hosted
environment (`READTHEDOCS` set to `True`) with `sphinx_rtd_theme`
importable, the theme probe is skipped and `html_theme` stays `default`,
not `sphinx_rtd_theme`. -/
theorem c1_counterexample :
    (Env.mk (some "True") true "themes").rtdThemeImportable = true ∧
    resolveTheme (Env.mk (some "True") true "themes") = "default" ∧
    ¬ resolveTheme (Env.mk (some "True") true "themes") = "sphinx_rtd_theme" := by
  refine ⟨rfl, rfl, by decide⟩

/-- C1 (amended): outside the hosted environment the theme selection
returns `sphinx_rtd_theme` exactly when the optional module can be
imported and `default` when it cannot; in the hosted environment it
returns `default` regardless of importability. -/
theorem c1_theme_selection : ∀ env : Env,
    (on_rtd env = false →
      (env.rtdThemeImportable = true → resolveTheme env = "sphinx_rtd_theme") ∧
      (env.rtdThemeImportable = false → resolveTheme env = "default")) ∧
    (on_rtd env = true → resolveTheme env = "default") := by
  intro env
  refine ⟨fun h => ⟨fun hi => ?_, fun hi => ?_⟩, fun h => ?_⟩ <;>
    simp_all [resolveTheme, load, execConf, themeSel, tryThemeBlock, importSphinxRtdTheme,
      Except.tryCatch, pure, Except.pure, bind, Except.bind]

/-- Witness for C1 (amended) at two concrete environments. -/
theorem c1_theme_selection_witness :
    resolveTheme (Env.mk none true "p") = "sphinx_rtd_theme" ∧
    resolveTheme (Env.mk (some "True") true "p") = "default" :=
  ⟨((c1_theme_selection (Env.mk none true "p")).1 rfl).1 rfl,
   (c1_theme_selection (Env.mk (some "True") true "p")).2 rfl⟩

/-- C2: every pattern in the `extlinks` mapping contains the `%s`
placeholder exactly once, and expanding it with any version string inserts
the version at the unique placeholder position between a placeholder-free
prefix and suffix; when the version string itself is placeholder-free, so
is the whole expansion. -/
theorem c2_extlink_expansion :
    ∀ p ∈ extlinks, countPS p.2.1.data = 1 ∧
    ∀ v : String, ∃ pre suf : List Char,
      countPS pre = 0 ∧ countPS suf = 0 ∧
      p.2.1.data = pre ++ ('%' :: 's' :: []) ++ suf ∧
      (expandTemplate p.2.1 v).data = pre ++ v.data ++ suf ∧
      (countPS v.data = 0 → countPS (expandTemplate p.2.1 v).data = 0) := by
  intro p hp
  simp only [extlinks, List.mem_cons, List.mem_singleton, List.not_mem_nil,
    or_false] at hp
  rcases hp with rfl | rfl | rfl | rfl | rfl
  · exact ⟨by decide, fun v => expand_case _ "http://docs.silhouette.mohiva.com/" "/" v
      (by decide) (by decide) (by decide) (by decide) (by decide) rfl⟩
  · exact ⟨by decide, fun v => expand_case _ "http://silhouette.mohiva.com/api/" "/" v
      (by decide) (by decide) (by decide) (by decide) (by decide) rfl⟩
  · exact ⟨by decide, fun v => expand_case _
      "https://readthedocs.org/projects/silhouette/downloads/htmlzip/" "/" v
      (by decide) (by decide) (by decide) (by decide) (by decide) rfl⟩
  · exact ⟨by decide, fun v => expand_case _
      "https://readthedocs.org/projects/silhouette/downloads/pdf/" "/" v
      (by decide) (by decide) (by decide) (by decide) (by decide) rfl⟩
  · exact ⟨by decide, fun v => expand_case _
      "https://readthedocs.org/projects/silhouette/downloads/epub/" "/" v
      (by decide) (by decide) (by decide) (by decide) (by decide) rfl⟩

/-- Witness for C2 at the `silhouette-doc` entry and version `1.0`. -/
theorem c2_extlink_expansion_witness :
    countPS ("http://docs.silhouette.mohiva.com/%s/" : String).data = 1 ∧
    countPS (expandTemplate "http://docs.silhouette.mohiva.com/%s/" "1.0").data = 0 := by
  have h := c2_extlink_expansion
    ("silhouette-doc", ("http://docs.silhouette.mohiva.com/%s/", ""))
    (by simp [extlinks])
  obtain ⟨h1, h2⟩ := h
  obtain ⟨pre, suf, -, -, -, -, h5⟩ := h2 "1.0"
  exact ⟨h1, h5 (by decide)⟩

/-- C3: link-template expansion is the concatenation of base URL, version
and trailing segment; in particular the `silhouette-doc` pattern expanded
with `1.0` and the `silhouette-api-doc` pattern expanded with `2.0` give
the two URLs the claim names. -/
theorem c3_concatenation :
    extlinks.lookup "silhouette-doc" = some ("http://docs.silhouette.mohiva.com/%s/", "") ∧
    extlinks.lookup "silhouette-api-doc" = some ("http://silhouette.mohiva.com/api/%s/", "") ∧
    expandTemplate "http://docs.silhouette.mohiva.com/%s/" "1.0" =
      "http://docs.silhouette.mohiva.com/1.0/" ∧
    expandTemplate "http://silhouette.mohiva.com/api/%s/" "2.0" =
      "http://silhouette.mohiva.com/api/2.0/" ∧
    (∀ v : String, expandTemplate "http://docs.silhouette.mohiva.com/%s/" v =
      "http://docs.silhouette.mohiva.com/" ++ v ++ "/") ∧
    (∀ v : String, expandTemplate "http://silhouette.mohiva.com/api/%s/" v =
      "http://silhouette.mohiva.com/api/" ++ v ++ "/") := by
  refine ⟨rfl, rfl, by decide, by decide, fun v => ?_, fun v => ?_⟩ <;>
    (apply String.ext; rw [String.data_append, String.data_append]; exact rfl)

/-- C4: every load yields the short version field `2` and the full version
field `2.0-SNAPSHOT`. -/
theorem c4_version_fields : ∀ env : Env,
    (load env).versionField = "2" ∧ (load env).releaseField = "2.0-SNAPSHOT" :=
  fun _ => ⟨rfl, rfl⟩

/-- C5: when the import of `sphinx_rtd_theme` raises `ImportError`, the
try/except swallows the failure — the theme block returns normally with
the already-assigned `default` theme and the untouched `html_theme_path` —
and every configuration field other than the two theme fields is
independent of the probe (and of the environment and prior state
entirely). -/
theorem c5_import_failure_recovered : ∀ (env : Env) (s : Config),
    importSphinxRtdTheme env = Except.error () →
    tryThemeBlock env s.html_theme_path = Except.ok ("default", s.html_theme_path) ∧
    (execConf env s).html_theme = "default" ∧
    (execConf env s).html_theme_path = s.html_theme_path ∧
    ∀ (env₂ : Env) (s₂ : Config), nonThemeAgree (execConf env s) (execConf env₂ s₂) := by
  intro env s h
  have htb : tryThemeBlock env s.html_theme_path = Except.ok ("default", s.html_theme_path) := by
    simp [tryThemeBlock, Except.tryCatch, h, pure, Except.pure, bind, Except.bind]
  refine ⟨htb, ?_, ?_, ?_⟩
  · cases h1 : on_rtd env <;> simp [execConf, themeSel, h1, htb]
  · cases h1 : on_rtd env <;> simp [execConf, themeSel, h1, htb]
  · intro env₂ s₂
    simp [nonThemeAgree, execConf]

/-- Witness for C5: a non-hosted environment in which the import fails. -/
theorem c5_import_failure_recovered_witness :
    tryThemeBlock (Env.mk none false "") initState.html_theme_path =
      Except.ok ("default", initState.html_theme_path) ∧
    (execConf (Env.mk none false "") initState).html_theme = "default" ∧
    (execConf (Env.mk none false "") initState).html_theme_path = initState.html_theme_path ∧
    nonThemeAgree (execConf (Env.mk none false "") initState)
      (execConf (Env.mk (some "True") true "x") initState) := by
  have h := c5_import_failure_recovered (Env.mk none false "") initState rfl
  exact ⟨h.1, h.2.1, h.2.2.1, h.2.2.2 (Env.mk (some "True") true "x") initState⟩

/-- C6: on every execution path, the selected `html_theme` is either
`default` or `sphinx_rtd_theme`. -/
theorem c6_theme_enumeration : ∀ (env : Env) (s : Config),
    (execConf env s).html_theme = "default" ∨
    (execConf env s).html_theme = "sphinx_rtd_theme" := by
  intro env s
  cases h1 : on_rtd env <;> cases h2 : env.rtdThemeImportable <;>
    simp [execConf, themeSel, tryThemeBlock, importSphinxRtdTheme, Except.tryCatch,
      pure, Except.pure, bind, Except.bind, h1, h2]

/-- C7: executing the module body is idempotent on the interpreter state —
for a fixed environment, a repeated load returns exactly the same
configuration record (metadata, link templates and output options
included). -/
theorem c7_load_idempotent : ∀ (env : Env) (s : Config),
    execConf env (execConf env s) = execConf env s := by
  intro env s
  cases h1 : on_rtd env <;> cases h2 : env.rtdThemeImportable <;>
    simp [execConf, themeSel, tryThemeBlock, importSphinxRtdTheme, Except.tryCatch,
      pure, Except.pure, bind, Except.bind, h1, h2]

/-- C8: `setup` appends exactly the one stylesheet `theme_overrides.css`
to the CSS registry of the host application — the registry grows by one
entry — and leaves the other registry of the host application unchanged
(it never touches the module-level configuration at all: its type acts on
`App` only). -/
theorem c8_setup_one_stylesheet : ∀ app : App,
    (setup app).css_files = app.css_files ++ ["theme_overrides.css"] ∧
    (setup app).css_files.length = app.css_files.length + 1 ∧
    (setup app).js_files = app.js_files := by
  intro app
  refine ⟨rfl, ?_, rfl⟩
  simp [setup, add_stylesheet]

/-- C9: hosted-environment detection is the exact string comparison of the
`READTHEDOCS` variable with `True`; on every mismatch (for example
`true`, `1` or unset) the non-hosted path is taken, in which the theme
probe decides the theme. -/
theorem c9_on_rtd_exact :
    (∀ env : Env, on_rtd env = true ↔ env.readthedocs = some "True") ∧
    (∀ env : Env, on_rtd env = false →
      (env.rtdThemeImportable = true → resolveTheme env = "sphinx_rtd_theme") ∧
      (env.rtdThemeImportable = false → resolveTheme env = "default")) ∧
    on_rtd (Env.mk (some "true") true "") = false ∧
    on_rtd (Env.mk (some "1") true "") = false ∧
    on_rtd (Env.mk none true "") = false := by
  refine ⟨fun env => ?_, fun env h => ⟨fun hi => ?_, fun hi => ?_⟩, rfl, rfl, rfl⟩
  · simp [on_rtd]
  · simp_all [resolveTheme, load, execConf, themeSel, tryThemeBlock, importSphinxRtdTheme,
      Except.tryCatch, pure, Except.pure, bind, Except.bind]
  · simp_all [resolveTheme, load, execConf, themeSel, tryThemeBlock, importSphinxRtdTheme,
      Except.tryCatch, pure, Except.pure, bind, Except.bind]

/-- Witness for C9 at concrete environments. -/
theorem c9_on_rtd_exact_witness :
    on_rtd (Env.mk (some "True") false "") = true ∧
    resolveTheme (Env.mk (some "true") true "p") = "sphinx_rtd_theme" := by
  have h := c9_on_rtd_exact
  exact ⟨(h.1 (Env.mk (some "True") false "")).mpr rfl,
    (h.2.1 (Env.mk (some "true") true "p") rfl).1 rfl⟩

/-- C10: the |last_stable| prolog substitution is built by formatting only
`last_stable` into the template — the resulting prolog is the literal text
with `1.0` inserted; `release` (`2.0-SNAPSHOT`), although passed as the
second format argument, occurs nowhere in the prolog. -/
theorem c10_rst_prolog :
    rst_prologVal = "\n.. |last_stable| replace:: :silhouette-doc:`1.0`\n" ∧
    last_stable.data <:+: rst_prologVal.data ∧
    ¬ releaseVal.data <:+: rst_prologVal.data := by
  refine ⟨by decide, by decide, by decide⟩

end DocsConf
